import Mathlib

/-!
Verification of the PBIP-to-Power-BI deployment pipeline
(`scripts/main.py`, `scripts/deploy.py`) via a shallow embedding.

File contents are modelled as raw text paired with the result of
`json.loads`; HTTP traffic is modelled by response oracles; the zip
container is a list of named entries; the filesystem is an explicit
structure of directories, files and the walked static-resource subtree.
-/

namespace Visa

/-- Python-style JSON values, as produced by `response.json()` / `json.loads`. -/
inductive Json where
  | null
  | bool (b : Bool)
  | num (n : Int)
  | str (s : String)
  | arr (elems : List Json)
  | obj (fields : List (String × Json))

/-- Python truthiness of a JSON value (`if not result:` semantics):
`None`, `False`, `0`, `""`, `[]` and `{}` are falsy. -/
def Json.truthy : Json → Bool
  | .null => false
  | .bool b => b
  | .num n => n != 0
  | .str s => s != ""
  | .arr elems => !elems.isEmpty
  | .obj fields => !fields.isEmpty

/-- `dict.get(key)`: first binding of `key` in an object, `None` otherwise. -/
def Json.getField : Json → String → Option Json
  | .obj fields, key => List.lookup key fields
  | _, _ => none

/-- An HTTP response as seen by the script: status code, parsed body
(`none` when `response.content` is empty, so `.json()` would raise),
and raw text used in diagnostics. -/
structure HttpResponse where
  status : Nat
  content : Option Json
  text : String

/-- `status_code in (200, 201, 202)` — the import-accepting statuses. -/
def succStatus (r : HttpResponse) : Bool :=
  r.status == 200 || r.status == 201 || r.status == 202

/-- `response.json() if response.content else {"status": "success"}`. -/
def parsedOrSentinel (r : HttpResponse) : Json :=
  match r.content with
  | some j => j
  | none => .obj [("status", Json.str ("success"))]

/-- The four upload strategies of the chain, in source order:
temporary-upload-location (staged), direct binary (Method 1),
multipart form (Method 2), minimal parameters (Method 3). -/
inductive Strategy where
  | staged
  | direct
  | multipart
  | minimal
deriving DecidableEq

/-- One recorded upload attempt: which strategy, its HTTP status and body. -/
structure Attempt where
  strategy : Strategy
  status : Nat
  body : String
deriving DecidableEq

/-- The exception raised by `import_pbix_simple` when all three of its
methods fail, carrying each method's status code and response text. -/
structure UploadError where
  attempts : List Attempt
deriving DecidableEq

/-- An unhandled Python exception escaping a strategy (e.g. `.json()` on an
empty body raising `JSONDecodeError`), which aborts the whole pipeline. -/
inductive PyErr where
  | jsonDecode
deriving DecidableEq

/-- Responses consumed by `import_pbix_with_temp_upload`: the
`createTemporaryUploadLocation` POST, the blob PUT, and the import POST. -/
structure TempUploadEnv where
  tempLocResp : HttpResponse
  putResp : HttpResponse
  importResp : HttpResponse

/-- `import_pbix_with_temp_upload` (main.py:253-323). Returns `.ok none`
when a step fails gracefully (the Python function returns `None`),
`.ok (some body)` on success, `.error` when `.json()` raises. -/
def import_pbix_with_temp_upload (tenv : TempUploadEnv) : Except PyErr (Option Json) :=
  if !(tenv.tempLocResp.status == 200 || tenv.tempLocResp.status == 201) then .ok none
  else
    match tenv.tempLocResp.content with
    | none => .error .jsonDecode
    | some tempData =>
      let urlTruthy :=
        match tempData.getField ("url") with
        | some u => u.truthy
        | none => false
      if !urlTruthy then .ok none
      else if !(tenv.putResp.status == 200 || tenv.putResp.status == 201) then .ok none
      else if succStatus tenv.importResp then .ok (some (parsedOrSentinel tenv.importResp))
      else .ok none

/-- Responses consumed by `import_pbix_simple`: Method 1 (direct binary),
Method 2 (multipart form), Method 3 (minimal parameters). -/
structure SimpleUploadEnv where
  m1 : HttpResponse
  m2 : HttpResponse
  m3 : HttpResponse

/-- `import_pbix_simple` (main.py:325-463): tries Method 1, then 2, then 3;
raises an error aggregating the three attempts when all fail. The artifact
existence / zip-validity guards at its top re-check what the builder already
verified and are preconditions here. Also returns the list of methods tried. -/
def import_pbix_simple (senv : SimpleUploadEnv) :
    Except UploadError Json × List Strategy :=
  if succStatus senv.m1 then (.ok (parsedOrSentinel senv.m1), [.direct])
  else if succStatus senv.m2 then (.ok (parsedOrSentinel senv.m2), [.direct, .multipart])
  else if succStatus senv.m3 then
    (.ok (parsedOrSentinel senv.m3), [.direct, .multipart, .minimal])
  else
    (.error ⟨[⟨.direct, senv.m1.status, senv.m1.text⟩,
              ⟨.multipart, senv.m2.status, senv.m2.text⟩,
              ⟨.minimal, senv.m3.status, senv.m3.text⟩]⟩,
     [.direct, .multipart, .minimal])

/-- A fatal failure of the upload phase. -/
inductive UploadFailure where
  | allMethodsFailed (e : UploadError)
  | exn (e : PyErr)
deriving DecidableEq

/-- The upload phase of `main` (main.py:509-514): try the staged upload,
then — when its result is `None` or falsy (`if not result:`) — fall back to
`import_pbix_simple`. Returns the outcome and the strategies attempted. -/
def uploadPhase (tenv : TempUploadEnv) (senv : SimpleUploadEnv) :
    Except UploadFailure Json × List Strategy :=
  let fallback : Except UploadFailure Json × List Strategy :=
    match import_pbix_simple senv with
    | (.ok r, tried) => (.ok r, .staged :: tried)
    | (.error ue, tried) => (.error (.allMethodsFailed ue), .staged :: tried)
  match import_pbix_with_temp_upload tenv with
  | .error e => (.error (.exn e), [.staged])
  | .ok none => fallback
  | .ok (some j) => if j.truthy then (.ok j, [.staged]) else fallback

/-- A file's content as the scripts see it: the raw text that was read,
paired with the result of `json.loads` (`none` when parsing would raise
`JSONDecodeError`). -/
structure Text where
  raw : String
  parsed : Option Json

/-- One file discovered by `os.walk` under the report component's
`StaticResources` subtree: its path relative to the report directory and
whether reading it succeeds (a failed read is logged and skipped). -/
structure StaticRes where
  rel : String
  content : String
  readOk : Bool

/-- The project filesystem: existing directories, readable files, and the
walk of the report component's `StaticResources` subtree in walk order. -/
structure FS where
  dirs : List String
  files : List (String × Text)
  staticResources : List StaticRes

/-- Content of the file at `p`, when `p` is a readable file. -/
def FS.file (fs : FS) (p : String) : Option Text :=
  List.lookup p fs.files

/-- `os.path.exists`. -/
def FS.pathExists (fs : FS) (p : String) : Bool :=
  fs.dirs.contains p || (FS.file fs p).isSome

/-- `os.path.join(project_dir, "Demo Report.Report")`. -/
def reportDirOf (projectDir : String) : String :=
  projectDir ++ "/Demo Report.Report"

/-- `os.path.join(project_dir, "Demo Report.SemanticModel")`. -/
def modelDirOf (projectDir : String) : String :=
  projectDir ++ "/Demo Report.SemanticModel"

/-- `validate_pbip_structure` (main.py:5-26): collect the required files
that exist at the two hard-coded locations and demand at least two. -/
def validate_pbip_structure (fs : FS) (projectDir : String) : Bool :=
  let requiredFiles : List String :=
    (if FS.pathExists fs (reportDirOf projectDir) then
      (if FS.pathExists fs (reportDirOf projectDir ++ "/report.json") then
        [reportDirOf projectDir ++ "/report.json"]
      else [])
    else []) ++
    (if FS.pathExists fs (modelDirOf projectDir) then
      (if FS.pathExists fs (modelDirOf projectDir ++ "/model.bim") then
        [modelDirOf projectDir ++ "/model.bim"]
      else [])
    else [])
  decide (2 ≤ requiredFiles.length)

/-- Names of the zip entries the builder writes; `staticRes rel` stands for
`"Report/" ++ rel` with `rel` the path relative to the report directory. -/
inductive EntryName where
  | version
  | dataModelSchema
  | reportLayout
  | dataModel
  | diagramLayout
  | settings
  | securityBindings
  | connections
  | metadata
  | staticRes (rel : String)
deriving DecidableEq

/-- The zip-entry name string each `EntryName` denotes in the source. -/
def EntryName.zipName : EntryName → String
  | .version => "Version"
  | .dataModelSchema => "DataModelSchema"
  | .reportLayout => "Report/Layout"
  | .dataModel => "DataModel"
  | .diagramLayout => "DiagramLayout"
  | .settings => "Settings"
  | .securityBindings => "SecurityBindings"
  | .connections => "Connections"
  | .metadata => "Metadata"
  | .staticRes rel => "Report/" ++ rel

/-- Position of an entry in the mandated write order; all static-resource
entries share the final position. -/
def EntryName.rank : EntryName → Nat
  | .version => 0
  | .dataModelSchema => 1
  | .reportLayout => 2
  | .dataModel => 3
  | .diagramLayout => 4
  | .settings => 5
  | .securityBindings => 6
  | .connections => 7
  | .metadata => 8
  | .staticRes _ => 9

/-- The DataModelSchema entry's fixed content. -/
def schemaUrl : String :=
  "https://developer.microsoft.com/json-schemas/analysis-services/2016/tabular-object-model.json"

/-- The Settings entry written by `create_proper_pbix_from_pbip`. -/
def settingsContent : String :=
  "\x7b\"version\":\"1.0\",\"useStylableVisualContainerHeader\":true\x7d"

/-- The SecurityBindings entry's fixed XML. -/
def securityBindingsXml : String :=
  "<?xml version=\"1.0\" encoding=\"utf-8\"?><Bindings xmlns:xsi=\"http://www.w3.org/2001/XMLSchema-instance\" xmlns:xsd=\"http://www.w3.org/2001/XMLSchema\" />"

/-- The Connections entry's fixed XML. -/
def connectionsXml : String :=
  "<?xml version=\"1.0\" encoding=\"utf-8\"?><Connections></Connections>"

/-- The Metadata entry's fixed XML. -/
def metadataXml : String :=
  "<?xml version=\"1.0\" encoding=\"utf-8\"?><Metadata xmlns:xsi=\"http://www.w3.org/2001/XMLSchema-instance\" xmlns:xsd=\"http://www.w3.org/2001/XMLSchema\"><SelectionBookmark></SelectionBookmark><Timestamp>2024-01-01T00:00:00Z</Timestamp></Metadata>"

/-- Fatal packaging failures (`FileNotFoundError` / `Exception` raised by
the builder, and the orchestrator's validation failure). -/
inductive PackagingError where
  | missingComponent (msg : String)
  | invalidJson (which : String)
  | verifyReopenFailed
  | verifyReadFailed
deriving DecidableEq

/-- What reopening the just-written container gives back: `reopen` is the
entry list of the re-read zip (`none` when it cannot be opened at all) and
`readEntry` says whether reading a given entry succeeds. -/
structure ZipReopen where
  reopen : Option (List EntryName)
  readEntry : EntryName → Bool

/-- A required JSON entry copied from a project file: skipped when the file
is absent, embedded verbatim when `json.loads` succeeds, fatal otherwise. -/
def requiredJsonEntry (fs : FS) (path : String) (name : EntryName) (which : String) :
    Except PackagingError (List (EntryName × String)) :=
  match FS.file fs path with
  | none => .ok []
  | some t =>
    match t.parsed with
    | some _ => .ok [(name, t.raw)]
    | none => .error (.invalidJson which)

/-- The optional DiagramLayout entry: invalid JSON is only a warning and the
entry is skipped, never fatal. -/
def diagramEntry (fs : FS) (path : String) : List (EntryName × String) :=
  match FS.file fs path with
  | none => []
  | some t =>
    match t.parsed with
    | some _ => [(.diagramLayout, t.raw)]
    | none => []

/-- Static-resource entries: each readable file becomes a
`Report/<relative-path>` entry; a failed read is skipped. -/
def staticEntries (srs : List StaticRes) : List (EntryName × String) :=
  srs.filterMap fun s => if s.readOk then some (.staticRes s.rel, s.content) else none

/-- The ordered entry list written by `create_proper_pbix_from_pbip`
(main.py:134-224), before self-verification. -/
def builtEntries (fs : FS) (projectDir : String) :
    Except PackagingError (List (EntryName × String)) :=
  match requiredJsonEntry fs (reportDirOf projectDir ++ "/report.json")
      .reportLayout ("report.json") with
  | .error e => .error e
  | .ok rl =>
    match requiredJsonEntry fs (modelDirOf projectDir ++ "/model.bim")
        .dataModel ("model.bim") with
    | .error e => .error e
    | .ok dm =>
      .ok ([(.version, "4.0"), (.dataModelSchema, schemaUrl)] ++ rl ++ dm
        ++ diagramEntry fs (modelDirOf projectDir ++ "/diagramLayout.json")
        ++ [(.settings, settingsContent), (.securityBindings, securityBindingsXml),
            (.connections, connectionsXml), (.metadata, metadataXml)]
        ++ staticEntries fs.staticResources)

/-- `create_proper_pbix_from_pbip` (main.py:107-251): check the two component
directories, write the entries, then reopen the container and re-read every
named entry. The `Bool` tells whether the temporary artifact file is still on
disk afterwards (the `except` branch unlinks it on any failure). -/
def create_proper_pbix_from_pbip (fs : FS) (projectDir : String) (zio : ZipReopen) :
    Except PackagingError (List (EntryName × String)) × Bool :=
  if FS.pathExists fs (reportDirOf projectDir) = false then
    (.error (.missingComponent ("Report directory not found")), false)
  else if FS.pathExists fs (modelDirOf projectDir) = false then
    (.error (.missingComponent ("SemanticModel directory not found")), false)
  else
    match builtEntries fs projectDir with
    | .error e => (.error e, false)
    | .ok entries =>
      match zio.reopen with
      | none => (.error .verifyReopenFailed, false)
      | some names =>
        if names.all zio.readEntry then (.ok entries, true)
        else (.error .verifyReadFailed, false)

/-- `create_minimal_pbix_for_testing` (main.py:28-105): the fixed entry list
of the minimal test container, in its write order. -/
def create_minimal_pbix_for_testing : List (EntryName × String) :=
  [(.version, "4.0"),
   (.dataModelSchema, schemaUrl),
   (.dataModel, "\x7b\"compatibilityLevel\":1550,\"model\":\x7b\"culture\":\"en-US\",\"dataAccessOptions\":\x7b\"legacyRedirects\":true,\"returnErrorValuesAsNull\":true\x7d,\"defaultPowerBIDataSourceVersion\":\"powerBI_V3\",\"tables\":[]\x7d\x7d"),
   (.reportLayout, "\x7b\"config\":\"\x7b\\\"version\\\":\\\"5.59\\\",\\\"themeCollection\\\":\x7b\\\"baseTheme\\\":\x7b\\\"name\\\":\\\"CY24SU10\\\",\\\"version\\\":\\\"5.61\\\",\\\"type\\\":2\x7d\x7d,\\\"activeSectionIndex\\\":0,\\\"defaultDrillFilterOtherVisuals\\\":true\x7d\",\"layoutOptimization\":0,\"sections\":[\x7b\"name\":\"ReportSection\",\"displayName\":\"Page 1\",\"filters\":\"[]\",\"ordinal\":0,\"visualContainers\":[]\x7d]\x7d"),
   (.settings, "\x7b\"version\":\"1.0\",\"useStylableVisualContainerHeader\":true\x7d"),
   (.securityBindings, securityBindingsXml),
   (.connections, connectionsXml),
   (.metadata, metadataXml)]

/-- The packaging stage as the orchestrator runs it (main.py:500-504):
structure validation first, then the builder. -/
def packagingStage (fs : FS) (projectDir : String) (zio : ZipReopen) :
    Except PackagingError (List (EntryName × String)) :=
  if validate_pbip_structure fs projectDir = false then
    .error (.missingComponent ("PBIP project structure validation failed"))
  else (create_proper_pbix_from_pbip fs projectDir zio).1

/-- Monotone-rank check: the entry names appear in the mandated write order
(statics may repeat the final position). -/
def ranksMono : List Nat → Bool
  | a :: b :: rest => decide (a ≤ b) && ranksMono (b :: rest)
  | _ => true

/-- The mandated write order of §6: `Version` first, and every later entry
at a rank no smaller than its predecessor's. -/
def mandatedOrderOk (names : List EntryName) : Bool :=
  decide (names.head? = some EntryName.version) && ranksMono (names.map EntryName.rank)

/-- One dataset row of the workspace dataset listing. -/
structure Dataset where
  name : String
  id : String

/-- The exception `wait_for_dataset` raises when the timeout budget is
spent, together with the loop's elapsed counter at that point. -/
structure TimeoutErr where
  elapsed : Nat
deriving DecidableEq

/-- The poll loop of `wait_for_dataset` (deploy.py:32-43). `listing t` is
the dataset listing returned by the GET issued at elapsed time `t`; each
iteration polls, filters by name, sleeps 5 and adds 5 to `elapsed`. The
returned list records the elapsed times at which polls were issued. `fuel`
is an upper bound on the remaining iterations; the caller supplies enough
that the `0` case is unreachable before `elapsed < timeout` fails. -/
def wfdLoop (listing : Nat → List Dataset) (dsName : String) (timeout : Nat) :
    Nat → Nat → Except TimeoutErr String × List Nat
  | 0, elapsed => (.error ⟨elapsed⟩, [])
  | fuel + 1, elapsed =>
    if elapsed < timeout then
      match (listing elapsed).filter (fun d => d.name == dsName) with
      | d :: _ => (.ok d.id, [elapsed])
      | [] =>
        let rest := wfdLoop listing dsName timeout fuel (elapsed + 5)
        (rest.1, elapsed :: rest.2)
    else (.error ⟨elapsed⟩, [])

/-- `wait_for_dataset` (deploy.py:32-43): loop from `elapsed = 0` with steps
of 5 until a dataset named `dsName` appears or `elapsed < timeout` fails. -/
def wait_for_dataset (listing : Nat → List Dataset) (dsName : String) (timeout : Nat) :
    Except TimeoutErr String × List Nat :=
  wfdLoop listing dsName timeout (timeout / 5 + 1) 0

/-- One entry of the dataset's data-source listing: `datasourceId` is
`none` when the `'datasourceId'` key is absent, `datasourceType` mirrors
`ds.get('datasourceType')`. -/
structure Datasource where
  datasourceId : Option String
  datasourceType : Option String
deriving DecidableEq

/-- The `datasourceSelector` built for one entry. -/
structure Selector where
  datasourceId : Option String
  datasourceType : Option String
deriving DecidableEq

/-- The credential block attached when both username and password are
supplied and truthy. -/
structure Credential where
  credentialType : String
  username : String
  password : String
  credentialsEncrypted : Bool
deriving DecidableEq

/-- One update descriptor submitted in the batched update call. -/
structure UpdateRequest where
  datasourceSelector : Selector
  connectionString : String
  credentialDetails : Option Credential
deriving DecidableEq

/-- Python truthiness of an optional string (`if username and password:`). -/
def optTruthy : Option String → Bool
  | some s => s != ""
  | none => false

/-- `build_update_requests` (deploy.py:60-81): one update descriptor per
data-source entry; the selector carries the id when the key is present and
always carries the type; the connection string substitutes the configured
warehouse authority and catalog. -/
def build_update_requests (datasources : List Datasource)
    (dwConnection dwName : String) (username password : Option String) :
    List UpdateRequest :=
  datasources.map fun ds =>
    ⟨⟨ds.datasourceId, ds.datasourceType⟩,
     "powerbi://" ++ dwConnection ++ ";Initial Catalog=" ++ dwName,
     if optTruthy username && optTruthy password then
       some ⟨"Basic", username.getD "", password.getD "", false⟩
     else none⟩

/-- Observable pipeline events of one `main` run, in order. -/
inductive Ev where
  | validate
  | build
  | strat (s : Strategy)
  | poll
  | rebind
  | cleanupDelete
deriving DecidableEq

/-- The observable outcome of one `main` run. -/
structure RunOutcome where
  exitCode : Nat
  uploadResult : Option Json
  events : List Ev
  artifactOnDisk : Bool

/-- The `finally` block of `main` (main.py:539-542): delete the artifact
when it is still on disk, recording the cleanup. -/
def finallyCleanup (onDisk : Bool) (o : RunOutcome) : RunOutcome :=
  if onDisk then ⟨o.exitCode, o.uploadResult, o.events ++ [.cleanupDelete], false⟩
  else o

/-- Everything one `main` run consumes. -/
structure MainEnv where
  fs : FS
  projectDir : String
  zio : ZipReopen
  tenv : TempUploadEnv
  senv : SimpleUploadEnv

/-- `main` (main.py:465-542): validate, build, run the upload phase, report
success or failure, and run the `finally` cleanup; there is no call into
`deploy.wait_for_dataset` or any datasource update. -/
def mainRun (env : MainEnv) : RunOutcome :=
  if validate_pbip_structure env.fs env.projectDir = false then
    ⟨1, none, [.validate], false⟩
  else
    match create_proper_pbix_from_pbip env.fs env.projectDir env.zio with
    | (.error _, onDisk) =>
      finallyCleanup onDisk ⟨1, none, [.validate, .build], onDisk⟩
    | (.ok _, onDisk) =>
      match uploadPhase env.tenv env.senv with
      | (.ok r, tried) =>
        finallyCleanup onDisk ⟨0, some r, [.validate, .build] ++ tried.map Ev.strat, onDisk⟩
      | (.error _, tried) =>
        finallyCleanup onDisk ⟨1, none, [.validate, .build] ++ tried.map Ev.strat, onDisk⟩

/-! ### Helper lemmas -/

/-- When no poll ever finds the dataset, the loop runs until its elapsed
counter reaches the timeout, polling once per iteration. -/
lemma wfdLoop_never_terminal (listing : Nat → List Dataset) (dsName : String)
    (timeout : Nat)
    (h : ∀ t, (listing t).filter (fun d => d.name == dsName) = []) :
    ∀ fuel elapsed, timeout ≤ 5 * fuel + elapsed →
      wfdLoop listing dsName timeout fuel elapsed =
        (.error ⟨elapsed + 5 * ((timeout - elapsed + 4) / 5)⟩,
         List.range' elapsed ((timeout - elapsed + 4) / 5) 5) := by
  intro fuel
  induction fuel with
  | zero =>
    intro elapsed hle
    have h0 : (timeout - elapsed + 4) / 5 = 0 := by omega
    simp [wfdLoop, h0]
  | succ fuel ih =>
    intro elapsed hle
    by_cases hlt : elapsed < timeout
    · have hceil : (timeout - elapsed + 4) / 5 = (timeout - (elapsed + 5) + 4) / 5 + 1 := by
        omega
      have harith : elapsed + 5 * ((timeout - (elapsed + 5) + 4) / 5 + 1) =
          elapsed + 5 + 5 * ((timeout - (elapsed + 5) + 4) / 5) := by omega
      rw [hceil]
      simp only [wfdLoop, if_pos hlt, h elapsed]
      rw [ih (elapsed + 5) (by omega)]
      rw [List.range'_succ]
      simp [harith]
    · have h0 : (timeout - elapsed + 4) / 5 = 0 := by omega
      simp [wfdLoop, hlt, h0]

/-- Unfolding the builder's success case: both component directories exist,
the entry construction succeeded, and the self-verification reopen re-read
every named entry. -/
lemma create_proper_fst_ok (fs : FS) (pd : String) (zio : ZipReopen)
    (a : List (EntryName × String)) :
    (create_proper_pbix_from_pbip fs pd zio).1 = .ok a ↔
      (FS.pathExists fs (reportDirOf pd) = true ∧
       FS.pathExists fs (modelDirOf pd) = true ∧
       builtEntries fs pd = .ok a ∧
       ∃ names, zio.reopen = some names ∧ names.all zio.readEntry = true) := by
  unfold create_proper_pbix_from_pbip
  cases h1 : FS.pathExists fs (reportDirOf pd)
  · simp [h1]
  · cases h2 : FS.pathExists fs (modelDirOf pd)
    · simp [h1, h2]
    · cases hb : builtEntries fs pd with
      | error e => simp [h1, h2, hb]
      | ok entries =>
        cases hr : zio.reopen with
        | none => simp [h1, h2, hb, hr]
        | some names =>
          cases hall : names.all zio.readEntry
          · simp only [h1, h2, hb, hr, hall]
            simp only [Bool.false_eq_true, if_false]
            simp
            intro _
            obtain ⟨x, hx, hfalse⟩ := List.all_eq_false.mp hall
            exact ⟨x, hx, Bool.eq_false_iff.mpr hfalse⟩
          · simp only [h1, h2, hb, hr, hall]
            simp only [if_true]
            simp
            intro _
            exact List.all_eq_true.mp hall

/-- `validate_pbip_structure` succeeds exactly when both hard-coded
component directories and both hard-coded component files exist. -/
lemma validate_true_iff (fs : FS) (pd : String) :
    validate_pbip_structure fs pd = true ↔
      (FS.pathExists fs (reportDirOf pd) = true ∧
       FS.pathExists fs (reportDirOf pd ++ "/report.json") = true ∧
       FS.pathExists fs (modelDirOf pd) = true ∧
       FS.pathExists fs (modelDirOf pd ++ "/model.bim") = true) := by
  unfold validate_pbip_structure
  cases h1 : FS.pathExists fs (reportDirOf pd) <;>
    cases h2 : FS.pathExists fs (reportDirOf pd ++ "/report.json") <;>
      cases h3 : FS.pathExists fs (modelDirOf pd) <;>
        cases h4 : FS.pathExists fs (modelDirOf pd ++ "/model.bim") <;>
          simp

/-- The two joined path spellings agree. -/
lemma reportJsonPath (pd : String) :
    reportDirOf pd ++ "/report.json" = pd ++ "/Demo Report.Report/report.json" := by
  unfold reportDirOf
  rw [String.append_assoc]
  congr 1

/-- The two joined path spellings agree. -/
lemma modelBimPath (pd : String) :
    modelDirOf pd ++ "/model.bim" = pd ++ "/Demo Report.SemanticModel/model.bim" := by
  unfold modelDirOf
  rw [String.append_assoc]
  congr 1

/-- A do-step reduction: when the Report/Layout step fails,
`builtEntries` fails with the same error. -/
lemma builtEntries_error_of_rl_error (fs : FS) (pd : String) (e : PackagingError)
    (h : requiredJsonEntry fs (reportDirOf pd ++ "/report.json")
        .reportLayout ("report.json") = .error e) :
    builtEntries fs pd = .error e := by
  unfold builtEntries
  rw [h]

/-- A do-step reduction: when the DataModel step fails after a successful
Report/Layout step, `builtEntries` fails with the DataModel error. -/
lemma builtEntries_error_of_dm_error (fs : FS) (pd : String)
    (rl : List (EntryName × String)) (e : PackagingError)
    (hrl : requiredJsonEntry fs (reportDirOf pd ++ "/report.json")
        .reportLayout ("report.json") = .ok rl)
    (hdm : requiredJsonEntry fs (modelDirOf pd ++ "/model.bim")
        .dataModel ("model.bim") = .error e) :
    builtEntries fs pd = .error e := by
  unfold builtEntries
  rw [hrl, hdm]

/-- A present file whose content fails `json.loads` makes the required
entry step fatal. -/
lemma requiredJsonEntry_error_of_invalid (fs : FS) (path : String)
    (name : EntryName) (which : String) (t : Text)
    (hf : FS.file fs path = some t) (hp : t.parsed = none) :
    requiredJsonEntry fs path name which = .error (.invalidJson which) := by
  unfold requiredJsonEntry
  rw [hf]
  simp [hp]

/-- When validation passes, the packaging stage is the builder itself. -/
lemma packagingStage_eq_builder (fs : FS) (pd : String) (zio : ZipReopen)
    (hv : validate_pbip_structure fs pd = true) :
    packagingStage fs pd zio = (create_proper_pbix_from_pbip fs pd zio).1 := by
  unfold packagingStage
  rw [if_neg (by simp [hv])]

/-- When both component directories exist but entry construction fails, the
builder propagates the construction error. -/
lemma create_proper_fst_error_of_built (fs : FS) (pd : String) (zio : ZipReopen)
    (e : PackagingError)
    (h1 : FS.pathExists fs (reportDirOf pd) = true)
    (h2 : FS.pathExists fs (modelDirOf pd) = true)
    (hb : builtEntries fs pd = .error e) :
    (create_proper_pbix_from_pbip fs pd zio).1 = .error e := by
  unfold create_proper_pbix_from_pbip
  simp [h1, h2, hb]

/-! ### Concrete fixtures used by witnesses and counterexamples -/

/-- A concrete project directory. -/
def cPd : String := "proj"

/-- A file whose text parses as the empty JSON object. -/
def cJsonText : Text := ⟨"\x7b\x7d", some (.obj [])⟩

/-- A file whose text fails `json.loads`. -/
def cBadText : Text := ⟨"not json", none⟩

/-- A well-formed project: both hard-coded directories and component files
present, no diagram layout, no static resources. -/
def cFS : FS :=
  ⟨[reportDirOf cPd, modelDirOf cPd],
   [(reportDirOf cPd ++ "/report.json", cJsonText),
    (modelDirOf cPd ++ "/model.bim", cJsonText)],
   []⟩

/-- `cFS` with a report.json that is not valid JSON. -/
def cBadFS : FS :=
  ⟨[reportDirOf cPd, modelDirOf cPd],
   [(reportDirOf cPd ++ "/report.json", cBadText),
    (modelDirOf cPd ++ "/model.bim", cJsonText)],
   []⟩

/-- The entry list the builder writes for `cFS`. -/
def cEntries : List (EntryName × String) :=
  [(.version, "4.0"), (.dataModelSchema, schemaUrl),
   (.reportLayout, "\x7b\x7d"), (.dataModel, "\x7b\x7d"),
   (.settings, settingsContent), (.securityBindings, securityBindingsXml),
   (.connections, connectionsXml), (.metadata, metadataXml)]

/-- A reopen oracle that reports exactly the written entries, all readable. -/
def cZio : ZipReopen :=
  ⟨some [.version, .dataModelSchema, .reportLayout, .dataModel,
         .settings, .securityBindings, .connections, .metadata],
   fun _ => true⟩

/-! ### C3 -/

/-- C3: the packaging stage fails with a `PackagingError` — and hence
returns no artifact — whenever the report component is missing, the model
component is missing, or the content of a required entry (report.json /
model.bim) is present but not syntactically valid JSON. -/
theorem c3_build_fails_on_missing_or_invalid (fs : FS) (pd : String) (zio : ZipReopen)
    (h : FS.pathExists fs (reportDirOf pd ++ "/report.json") = false ∨
         FS.pathExists fs (modelDirOf pd ++ "/model.bim") = false ∨
         (∃ t, FS.file fs (reportDirOf pd ++ "/report.json") = some t ∧ t.parsed = none) ∨
         (∃ t, FS.file fs (modelDirOf pd ++ "/model.bim") = some t ∧ t.parsed = none)) :
    ∃ e, packagingStage fs pd zio = .error e := by
  by_cases hv : validate_pbip_structure fs pd = false
  · exact ⟨.missingComponent ("PBIP project structure validation failed"),
      by simp [packagingStage, hv]⟩
  · have hv' : validate_pbip_structure fs pd = true := by
      cases hvv : validate_pbip_structure fs pd
      · exact absurd hvv hv
      · rfl
    obtain ⟨h1, h2, h3, h4⟩ := (validate_true_iff fs pd).mp hv'
    rcases h with hmiss | hmiss | hinv | hinv
    · rw [hmiss] at h2
      exact absurd h2 (by simp)
    · rw [hmiss] at h4
      exact absurd h4 (by simp)
    · obtain ⟨t, hf, hp⟩ := hinv
      have hb := builtEntries_error_of_rl_error fs pd _
        (requiredJsonEntry_error_of_invalid fs _ _ _ t hf hp)
      exact ⟨_, by
        rw [packagingStage_eq_builder fs pd zio hv',
          create_proper_fst_error_of_built fs pd zio _ h1 h3 hb]⟩
    · obtain ⟨t, hf, hp⟩ := hinv
      cases hrl : requiredJsonEntry fs (reportDirOf pd ++ "/report.json")
          .reportLayout ("report.json") with
      | error e =>
        have hb := builtEntries_error_of_rl_error fs pd e hrl
        exact ⟨e, by
          rw [packagingStage_eq_builder fs pd zio hv',
            create_proper_fst_error_of_built fs pd zio e h1 h3 hb]⟩
      | ok rl =>
        have hb := builtEntries_error_of_dm_error fs pd rl _ hrl
          (requiredJsonEntry_error_of_invalid fs _ _ _ t hf hp)
        exact ⟨_, by
          rw [packagingStage_eq_builder fs pd zio hv',
            create_proper_fst_error_of_built fs pd zio _ h1 h3 hb]⟩

/-- C3 witness: a project whose report.json is present but not valid JSON
makes the packaging stage fail. -/
theorem c3_witness : ∃ e, packagingStage cBadFS cPd cZio = .error e :=
  c3_build_fails_on_missing_or_invalid cBadFS cPd cZio
    (Or.inr (Or.inr (Or.inl ⟨cBadText, rfl, rfl⟩)))

/-! ### C6 -/

/-- C6: every artifact the builder returns has passed self-verification:
the container was reopened successfully and every named entry of the
reopened container was re-read successfully; on any reopen or read failure
the builder returns an error instead of an artifact. -/
theorem c6_returned_artifact_reverified (fs : FS) (pd : String) (zio : ZipReopen)
    (a : List (EntryName × String))
    (h : (create_proper_pbix_from_pbip fs pd zio).1 = .ok a) :
    ∃ names, zio.reopen = some names ∧ names.all zio.readEntry = true :=
  ((create_proper_fst_ok fs pd zio a).mp h).2.2.2

/-- C6 witness: the well-formed fixture project builds successfully, so its
reopen oracle must have reported every entry readable. -/
theorem c6_witness :
    ∃ names, cZio.reopen = some names ∧ names.all cZio.readEntry = true :=
  c6_returned_artifact_reverified cFS cPd cZio cEntries rfl

/-! ### C10 -/

/-- C10: structure validation succeeds exactly when the hard-coded paths
`Demo Report.Report` / `Demo Report.Report/report.json` and
`Demo Report.SemanticModel` / `Demo Report.SemanticModel/model.bim` exist
under the project directory — content is never consulted — and the builder
can return an artifact only when the two hard-coded directories exist. -/
theorem c10_only_hardcoded_paths (fs : FS) (pd : String) :
    (validate_pbip_structure fs pd = true ↔
      (FS.pathExists fs (pd ++ "/Demo Report.Report") = true ∧
       FS.pathExists fs (pd ++ "/Demo Report.Report/report.json") = true ∧
       FS.pathExists fs (pd ++ "/Demo Report.SemanticModel") = true ∧
       FS.pathExists fs (pd ++ "/Demo Report.SemanticModel/model.bim") = true)) ∧
    (∀ zio a, (create_proper_pbix_from_pbip fs pd zio).1 = .ok a →
      FS.pathExists fs (pd ++ "/Demo Report.Report") = true ∧
      FS.pathExists fs (pd ++ "/Demo Report.SemanticModel") = true) := by
  have hrd : reportDirOf pd = pd ++ "/Demo Report.Report" := rfl
  have hmd : modelDirOf pd = pd ++ "/Demo Report.SemanticModel" := rfl
  constructor
  · rw [← hrd, ← hmd, ← reportJsonPath, ← modelBimPath]
    exact validate_true_iff fs pd
  · intro zio a h
    obtain ⟨h1, h2, _⟩ := (create_proper_fst_ok fs pd zio a).mp h
    rw [← hrd, ← hmd]
    exact ⟨h1, h2⟩

/-- C10 witness: the hard-coded-path characterisation at the fixtures. -/
theorem c10_witness :
    (validate_pbip_structure cFS cPd = true ↔
      (FS.pathExists cFS (cPd ++ "/Demo Report.Report") = true ∧
       FS.pathExists cFS (cPd ++ "/Demo Report.Report/report.json") = true ∧
       FS.pathExists cFS (cPd ++ "/Demo Report.SemanticModel") = true ∧
       FS.pathExists cFS (cPd ++ "/Demo Report.SemanticModel/model.bim") = true)) ∧
    (∀ zio a, (create_proper_pbix_from_pbip cFS cPd zio).1 = .ok a →
      FS.pathExists cFS (cPd ++ "/Demo Report.Report") = true ∧
      FS.pathExists cFS (cPd ++ "/Demo Report.SemanticModel") = true) :=
  c10_only_hardcoded_paths cFS cPd

/-! ### Entry-order machinery for the builder -/

/-- A list of all-9 ranks is monotone after any head at most 9. -/
lemma ranksMono_nines (xs : List Nat) (hx : ∀ x ∈ xs, x = 9) :
    ∀ a, a ≤ 9 → ranksMono (a :: xs) = true := by
  induction xs with
  | nil => intro a _; rfl
  | cons x rest ih =>
    intro a ha
    have hx9 : x = 9 := hx x (List.mem_cons_self x rest)
    have hrest : ∀ y ∈ rest, y = 9 := fun y hy => hx y (List.mem_cons_of_mem x hy)
    simp only [ranksMono, Bool.and_eq_true, decide_eq_true_eq]
    exact ⟨by omega, ih hrest x (by omega)⟩

/-- Peeling one ordered pair off a monotone rank list. -/
lemma ranksMono_cons_of (a b : Nat) (rest : List Nat) (hab : a ≤ b)
    (h : ranksMono (b :: rest) = true) : ranksMono (a :: b :: rest) = true := by
  simp only [ranksMono, Bool.and_eq_true, decide_eq_true_eq]
  exact ⟨hab, h⟩

/-- Every static-resource entry has the final rank. -/
lemma staticEntries_rank_nine (srs : List StaticRes) :
    ∀ x ∈ (staticEntries srs).map (fun e => EntryName.rank e.1), x = 9 := by
  intro x hx
  rcases List.mem_map.mp hx with ⟨e, he, hrank⟩
  rcases List.mem_filterMap.mp he with ⟨s, _, hsome⟩
  cases hok : s.readOk
  · rw [hok] at hsome
    simp at hsome
  · rw [hok] at hsome
    simp at hsome
    rw [← hsome] at hrank
    simpa [EntryName.rank] using hrank.symm

/-- A successful required-entry step yields either no entry or exactly the
named entry. -/
lemma requiredJsonEntry_ok_shape (fs : FS) (path : String) (name : EntryName)
    (which : String) (rl : List (EntryName × String))
    (h : requiredJsonEntry fs path name which = .ok rl) :
    rl = [] ∨ ∃ raw, rl = [(name, raw)] := by
  unfold requiredJsonEntry at h
  cases hf : FS.file fs path with
  | none =>
    rw [hf] at h
    injection h with h2
    exact Or.inl h2.symm
  | some t =>
    rw [hf] at h
    obtain ⟨raw, parsed⟩ := t
    cases parsed with
    | none => exact Except.noConfusion h
    | some j =>
      injection h with h2
      exact Or.inr ⟨raw, h2.symm⟩

/-- The diagram step yields either no entry or exactly one
DiagramLayout entry. -/
lemma diagramEntry_shape (fs : FS) (path : String) :
    diagramEntry fs path = [] ∨ ∃ raw, diagramEntry fs path = [(.diagramLayout, raw)] := by
  unfold diagramEntry
  cases hf : FS.file fs path with
  | none => exact Or.inl rfl
  | some t =>
    obtain ⟨raw, parsed⟩ := t
    cases parsed with
    | none => exact Or.inl rfl
    | some j => exact Or.inr ⟨raw, rfl⟩

/-- Decomposition of a successful entry construction into its segments. -/
lemma builtEntries_ok_shape (fs : FS) (pd : String) (a : List (EntryName × String))
    (h : builtEntries fs pd = .ok a) :
    ∃ rl dm dl,
      a = [(.version, "4.0"), (.dataModelSchema, schemaUrl)] ++ rl ++ dm ++ dl
        ++ [(.settings, settingsContent), (.securityBindings, securityBindingsXml),
            (.connections, connectionsXml), (.metadata, metadataXml)]
        ++ staticEntries fs.staticResources ∧
      (rl = [] ∨ ∃ raw, rl = [(.reportLayout, raw)]) ∧
      (dm = [] ∨ ∃ raw, dm = [(.dataModel, raw)]) ∧
      (dl = [] ∨ ∃ raw, dl = [(.diagramLayout, raw)]) := by
  unfold builtEntries at h
  cases hrl : requiredJsonEntry fs (reportDirOf pd ++ "/report.json")
      .reportLayout ("report.json") with
  | error e =>
    rw [hrl] at h
    exact Except.noConfusion h
  | ok rl =>
    cases hdm : requiredJsonEntry fs (modelDirOf pd ++ "/model.bim")
        .dataModel ("model.bim") with
    | error e =>
      rw [hrl, hdm] at h
      exact Except.noConfusion h
    | ok dm =>
      rw [hrl, hdm] at h
      have h2 : Except.ok (ε := PackagingError)
          ([(.version, "4.0"), (.dataModelSchema, schemaUrl)] ++ rl ++ dm
            ++ diagramEntry fs (modelDirOf pd ++ "/diagramLayout.json")
            ++ [(.settings, settingsContent), (.securityBindings, securityBindingsXml),
                (.connections, connectionsXml), (.metadata, metadataXml)]
            ++ staticEntries fs.staticResources) = .ok a := h
      injection h2 with h3
      exact ⟨rl, dm, diagramEntry fs (modelDirOf pd ++ "/diagramLayout.json"),
        h3.symm,
        requiredJsonEntry_ok_shape fs _ _ _ rl hrl,
        requiredJsonEntry_ok_shape fs _ _ _ dm hdm,
        diagramEntry_shape fs _⟩

/-! ### C8 -/

/-- C8 counterexample: the minimal-test construction path writes its
top-level entries with `DataModel` before `Report/Layout`, violating the
mandated order `Version, DataModelSchema, Report/Layout, DataModel, …`. -/
theorem c8_counterexample_minimal_path_order :
    mandatedOrderOk (create_minimal_pbix_for_testing.map Prod.fst) = false ∧
    create_minimal_pbix_for_testing.map Prod.fst =
      [.version, .dataModelSchema, .dataModel, .reportLayout,
       .settings, .securityBindings, .connections, .metadata] :=
  ⟨rfl, rfl⟩

/-- C8 (amended): every artifact produced by the PBIP construction path
(`create_proper_pbix_from_pbip`) has its entries in the mandated write
order — `Version` (content `4.0`) first, then `DataModelSchema`,
`Report/Layout`, `DataModel`, the optional auxiliary entries, and the
`Report/<relative-path>` static resources last; the minimal-test path
instead writes `DataModel` before `Report/Layout`. -/
theorem c8_proper_build_order (fs : FS) (pd : String) (zio : ZipReopen)
    (a : List (EntryName × String))
    (h : (create_proper_pbix_from_pbip fs pd zio).1 = .ok a) :
    mandatedOrderOk (a.map Prod.fst) = true ∧ a.head? = some (.version, "4.0") := by
  have hb := ((create_proper_fst_ok fs pd zio a).mp h).2.2.1
  obtain ⟨rl, dm, dl, ha, hrl, hdm, hdl⟩ := builtEntries_ok_shape fs pd a hb
  subst ha
  constructor
  · unfold mandatedOrderOk
    rw [Bool.and_eq_true]
    refine ⟨by simp, ?_⟩
    rcases hrl with rfl | ⟨raw1, rfl⟩ <;> rcases hdm with rfl | ⟨raw2, rfl⟩ <;>
      rcases hdl with rfl | ⟨raw3, rfl⟩ <;>
    · simp only [List.map_append, List.map_cons, List.map_nil, List.map_map,
        List.cons_append, List.nil_append, List.append_nil, Function.comp,
        EntryName.rank]
      repeat refine ranksMono_cons_of _ _ _ (by omega) ?_
      exact ranksMono_nines _ (staticEntries_rank_nine fs.staticResources) _ (by omega)
  · simp

/-- C8 witness: the fixture project's artifact is in mandated order. -/
theorem c8_witness :
    mandatedOrderOk (cEntries.map Prod.fst) = true ∧
    cEntries.head? = some (.version, "4.0") :=
  c8_proper_build_order cFS cPd cZio cEntries rfl

/-! ### C4 -/

/-- C4 counterexample input: a single data source without a
provider-assigned id. -/
def c4src : List Datasource := [⟨none, some ("Sql")⟩]

/-- C4: the claim "an update descriptor is produced only for entries whose
datasourceId is known; id-less entries are skipped" is false: for a
one-element listing without an id, the batch contains one descriptor, whose
selector has no id, rather than zero descriptors. -/
theorem c4_counterexample_idless_entry_gets_descriptor :
    (build_update_requests c4src ("dw.example.net") ("Catalog") none none).length = 1 ∧
    (build_update_requests c4src ("dw.example.net") ("Catalog") none none).map
      (fun u => u.datasourceSelector.datasourceId) = [none] := by
  exact ⟨rfl, rfl⟩

/-- C4 (amended): `build_update_requests` produces one update descriptor for
every data-source entry — including entries without a provider-assigned id —
and each descriptor's selector carries exactly the entry's optional id and
its type; no entry is skipped. -/
theorem c4_descriptor_for_every_entry (datasources : List Datasource)
    (dwConnection dwName : String) (username password : Option String) :
    (build_update_requests datasources dwConnection dwName username password).length
      = datasources.length ∧
    List.Forall₂ (fun (u : UpdateRequest) (ds : Datasource) =>
        u.datasourceSelector.datasourceId = ds.datasourceId ∧
        u.datasourceSelector.datasourceType = ds.datasourceType)
      (build_update_requests datasources dwConnection dwName username password)
      datasources := by
  constructor
  · simp [build_update_requests]
  · induction datasources with
    | nil => exact List.Forall₂.nil
    | cons d rest ih =>
      simp only [build_update_requests, List.map_cons] at ih ⊢
      exact List.Forall₂.cons ⟨rfl, rfl⟩ ih

/-! ### C7 -/

/-- C7: for every timeout and every listing in which the sought dataset
never appears, `wait_for_dataset` raises its timeout error with the elapsed
counter at or after the caller-supplied timeout (never strictly below it,
since this is the loop's only outcome), after issuing exactly one status
poll per loop iteration, each issued while elapsed was still below the
timeout and before the iteration's sleep. -/
theorem c7_poller_times_out_at_or_after_timeout (listing : Nat → List Dataset)
    (dsName : String) (timeout : Nat)
    (h : ∀ t, (listing t).filter (fun d => d.name == dsName) = []) :
    wait_for_dataset listing dsName timeout =
      (.error ⟨5 * ((timeout + 4) / 5)⟩, List.range' 0 ((timeout + 4) / 5) 5) ∧
    timeout ≤ 5 * ((timeout + 4) / 5) ∧
    (List.range' 0 ((timeout + 4) / 5) 5).all (fun p => decide (p < timeout)) = true ∧
    (List.range' 0 ((timeout + 4) / 5) 5).length = (timeout + 4) / 5 := by
  refine ⟨?_, by omega, ?_, by simp⟩
  · have hmain := wfdLoop_never_terminal listing dsName timeout h (timeout / 5 + 1) 0
      (by omega)
    simpa [wait_for_dataset] using hmain
  · simp only [List.all_eq_true, decide_eq_true_eq]
    intro p hp
    rw [List.mem_range'] at hp
    obtain ⟨i, hi, rfl⟩ := hp
    omega

/-- C7 witness: a listing that never contains the dataset, with timeout 12:
the loop times out at elapsed 15 ≥ 12 after polls at 0, 5 and 10. -/
theorem c7_witness :
    wait_for_dataset (fun _ => ([] : List Dataset)) ("ds") 12 =
      (.error ⟨5 * ((12 + 4) / 5)⟩, List.range' 0 ((12 + 4) / 5) 5) ∧
    12 ≤ 5 * ((12 + 4) / 5) ∧
    (List.range' 0 ((12 + 4) / 5) 5).all (fun p => decide (p < 12)) = true ∧
    (List.range' 0 ((12 + 4) / 5) 5).length = (12 + 4) / 5 :=
  c7_poller_times_out_at_or_after_timeout (fun _ => ([] : List Dataset)) ("ds") 12
    (fun _ => rfl)

/-! ### Upload-chain fixtures -/

/-- Staged upload succeeding end to end with a truthy import body. -/
def cTenvSuccess : TempUploadEnv :=
  ⟨⟨200, some (.obj [("url", Json.str ("https://blob.example/loc"))]), "ok"⟩,
   ⟨201, none, ""⟩,
   ⟨202, some (.obj [("id", Json.str ("imp1"))]), "accepted"⟩⟩

/-- Staged upload whose import POST is accepted (202) but whose parsed
response body is the falsy empty JSON object. -/
def cTenvFalsyBody : TempUploadEnv :=
  ⟨⟨200, some (.obj [("url", Json.str ("https://blob.example/loc"))]), "ok"⟩,
   ⟨201, none, ""⟩,
   ⟨202, some (.obj []), "accepted"⟩⟩

/-- Staged upload failing at the temporary-location request. -/
def cTenvFail : TempUploadEnv :=
  ⟨⟨400, some (.obj []), "bad request"⟩, ⟨500, none, ""⟩, ⟨500, none, ""⟩⟩

/-- Method 1 succeeding; the later methods would fail. -/
def cSenvM1 : SimpleUploadEnv :=
  ⟨⟨200, some (.obj [("id", Json.str ("m1"))]), "ok"⟩,
   ⟨400, none, "e2"⟩,
   ⟨400, none, "e3"⟩⟩

/-- All three direct methods failing, with distinct statuses and bodies. -/
def cSenvFail : SimpleUploadEnv :=
  ⟨⟨400, none, "e1"⟩, ⟨403, none, "e2"⟩, ⟨500, none, "e3"⟩⟩

/-! ### C2 -/

/-- C2 counterexample: with all four strategies failing, four strategies are
attempted but the raised error's diagnostic log has only the three
direct-method entries — the staged attempt's status/body is absent, so the
log does not have one entry per attempted strategy. -/
theorem c2_counterexample_staged_attempt_missing_from_log :
    (uploadPhase cTenvFail cSenvFail).2 =
      [Strategy.staged, Strategy.direct, Strategy.multipart, Strategy.minimal] ∧
    (uploadPhase cTenvFail cSenvFail).1 =
      .error (.allMethodsFailed ⟨[⟨.direct, 400, "e1"⟩, ⟨.multipart, 403, "e2"⟩,
        ⟨.minimal, 500, "e3"⟩]⟩) ∧
    (uploadPhase cTenvFail cSenvFail).2.length = 4 :=
  ⟨rfl, rfl, rfl⟩

/-- C2 (amended): when the staged upload fails gracefully and all three
direct methods fail, the upload phase fails — only then — with an error
whose diagnostic log carries exactly one entry for each of the three
direct-method attempts (direct binary, multipart, minimal), each with that
attempt's own status code and body; the staged attempt is not in the log. -/
theorem c2_upload_error_logs_direct_methods (tenv : TempUploadEnv)
    (senv : SimpleUploadEnv)
    (hstaged : import_pbix_with_temp_upload tenv = .ok none)
    (h1 : succStatus senv.m1 = false) (h2 : succStatus senv.m2 = false)
    (h3 : succStatus senv.m3 = false) :
    uploadPhase tenv senv =
      (.error (.allMethodsFailed ⟨[⟨.direct, senv.m1.status, senv.m1.text⟩,
          ⟨.multipart, senv.m2.status, senv.m2.text⟩,
          ⟨.minimal, senv.m3.status, senv.m3.text⟩]⟩),
       [.staged, .direct, .multipart, .minimal]) := by
  unfold uploadPhase
  rw [hstaged]
  unfold import_pbix_simple
  simp [h1, h2, h3]

/-- C2 witness: the failing fixtures instantiate the amended claim. -/
theorem c2_witness :
    uploadPhase cTenvFail cSenvFail =
      (.error (.allMethodsFailed ⟨[⟨.direct, 400, "e1"⟩, ⟨.multipart, 403, "e2"⟩,
          ⟨.minimal, 500, "e3"⟩]⟩),
       [.staged, .direct, .multipart, .minimal]) :=
  c2_upload_error_logs_direct_methods cTenvFail cSenvFail rfl rfl rfl rfl

/-! ### C5 -/

/-- C5 counterexample: the staged strategy succeeds (its import POST is
accepted with status 202 and it returns a parsed body), yet because that
body is falsy the chain goes on to attempt the direct strategy and returns
the direct strategy's result with two recorded attempts — refuting
"if strategy k succeeds … the chain returns strategy k's result, records
exactly k attempts, and never attempts any strategy after k" at k = 1. -/
theorem c5_counterexample_falsy_staged_success_continues :
    import_pbix_with_temp_upload cTenvFalsyBody = .ok (some (.obj [])) ∧
    succStatus cTenvFalsyBody.importResp = true ∧
    uploadPhase cTenvFalsyBody cSenvM1 =
      (.ok (.obj [("id", Json.str ("m1"))]), [.staged, .direct]) :=
  ⟨rfl, rfl, rfl⟩

/-- C5 (amended): the chain attempts strategies in the fixed order staged,
direct, multipart, minimal; if strategy k succeeds and all earlier ones
fail, it returns strategy k's result after exactly k recorded attempts and
never attempts a later strategy — unconditionally for k ∈ {2,3,4}, and for
k = 1 provided the staged result's parsed body is truthy (a falsy body
makes the orchestrator treat the staged success as a failure). -/
theorem c5_chain_fixed_priority_order (tenv : TempUploadEnv)
    (senv : SimpleUploadEnv) :
    (∀ r, import_pbix_with_temp_upload tenv = .ok (some r) → r.truthy = true →
      uploadPhase tenv senv = (.ok r, [.staged])) ∧
    (import_pbix_with_temp_upload tenv = .ok none → succStatus senv.m1 = true →
      uploadPhase tenv senv = (.ok (parsedOrSentinel senv.m1), [.staged, .direct])) ∧
    (import_pbix_with_temp_upload tenv = .ok none → succStatus senv.m1 = false →
      succStatus senv.m2 = true →
      uploadPhase tenv senv =
        (.ok (parsedOrSentinel senv.m2), [.staged, .direct, .multipart])) ∧
    (import_pbix_with_temp_upload tenv = .ok none → succStatus senv.m1 = false →
      succStatus senv.m2 = false → succStatus senv.m3 = true →
      uploadPhase tenv senv =
        (.ok (parsedOrSentinel senv.m3), [.staged, .direct, .multipart, .minimal])) := by
  refine ⟨?_, ?_, ?_, ?_⟩
  · intro r hr htr
    unfold uploadPhase
    rw [hr]
    simp [htr]
  · intro hs h1
    unfold uploadPhase
    rw [hs]
    unfold import_pbix_simple
    simp [h1]
  · intro hs h1 h2
    unfold uploadPhase
    rw [hs]
    unfold import_pbix_simple
    simp [h1, h2]
  · intro hs h1 h2 h3
    unfold uploadPhase
    rw [hs]
    unfold import_pbix_simple
    simp [h1, h2, h3]

/-- C5 witness: staged fails, Method 1 succeeds — the chain stops after the
second strategy and returns Method 1's parsed body. -/
theorem c5_witness :
    uploadPhase cTenvFail cSenvM1 =
      (.ok (parsedOrSentinel cSenvM1.m1), [.staged, .direct]) :=
  (c5_chain_fixed_priority_order cTenvFail cSenvM1).2.1 rfl rfl

/-! ### C1 and C9 -/

/-- A fully succeeding run environment. -/
def cEnvC1 : MainEnv := ⟨cFS, cPd, cZio, cTenvSuccess, cSenvFail⟩

/-- C1 counterexample: a run in which the (staged) upload strategy succeeds
emits the final success result (exit code 0) with no completion-poller and
no rebinder invocation anywhere in its event trace — success is reported on
upload alone, refuting the claim. -/
theorem c1_counterexample_success_on_upload_alone :
    (mainRun cEnvC1).exitCode = 0 ∧
    (mainRun cEnvC1).events =
      [.validate, .build, .strat .staged, .cleanupDelete] ∧
    Ev.poll ∉ (mainRun cEnvC1).events ∧
    Ev.rebind ∉ (mainRun cEnvC1).events := by
  have hev : (mainRun cEnvC1).events =
      [.validate, .build, .strat .staged, .cleanupDelete] := rfl
  exact ⟨rfl, hev, by rw [hev]; decide, by rw [hev]; decide⟩

/-- C1 (amended): the orchestrator never invokes the completion poller or
the datasource rebinder on any run; whenever it exits successfully, the
final result is exactly the upload phase's result, emitted on upload
alone (the completion poller exists in the codebase but is never called
by the orchestrator). -/
theorem c1_orchestrator_never_polls_or_rebinds (env : MainEnv) :
    Ev.poll ∉ (mainRun env).events ∧ Ev.rebind ∉ (mainRun env).events ∧
    ((mainRun env).exitCode = 0 →
      ∃ r tried, uploadPhase env.tenv env.senv = (.ok r, tried) ∧
        (mainRun env).uploadResult = some r) := by
  by_cases hv : validate_pbip_structure env.fs env.projectDir = false
  · refine ⟨?_, ?_, ?_⟩ <;> simp [mainRun, hv]
  · rcases hb : create_proper_pbix_from_pbip env.fs env.projectDir env.zio with ⟨b, onDisk⟩
    cases b with
    | error e =>
      cases onDisk <;> refine ⟨?_, ?_, ?_⟩ <;>
        simp [mainRun, hv, hb, finallyCleanup]
    | ok entries =>
      rcases hu : uploadPhase env.tenv env.senv with ⟨r, tried⟩
      cases r with
      | ok j =>
        cases onDisk <;> refine ⟨?_, ?_, ?_⟩ <;>
          simp [mainRun, hv, hb, hu, finallyCleanup]
      | error e =>
        cases onDisk <;> refine ⟨?_, ?_, ?_⟩ <;>
          simp [mainRun, hv, hb, hu, finallyCleanup]

/-- C1 witness: the amended claim at the fully succeeding fixture run. -/
theorem c1_witness :
    Ev.poll ∉ (mainRun cEnvC1).events ∧ Ev.rebind ∉ (mainRun cEnvC1).events ∧
    ((mainRun cEnvC1).exitCode = 0 →
      ∃ r tried, uploadPhase cEnvC1.tenv cEnvC1.senv = (.ok r, tried) ∧
        (mainRun cEnvC1).uploadResult = some r) :=
  c1_orchestrator_never_polls_or_rebinds cEnvC1

/-- C9: on every exit path of the pipeline — validation failure, build
failure, upload failure or success — the temporary artifact is not on disk
when the process exits: the builder unlinks it on its own failures and the
orchestrator's `finally` block unlinks it otherwise. -/
theorem c9_artifact_deleted_on_every_exit (env : MainEnv) :
    (mainRun env).artifactOnDisk = false := by
  by_cases hv : validate_pbip_structure env.fs env.projectDir = false
  · simp [mainRun, hv]
  · rcases hb : create_proper_pbix_from_pbip env.fs env.projectDir env.zio with ⟨b, onDisk⟩
    cases b with
    | error e => cases onDisk <;> simp [mainRun, hv, hb, finallyCleanup]
    | ok entries =>
      rcases hu : uploadPhase env.tenv env.senv with ⟨r, tried⟩
      cases r with
      | ok j => cases onDisk <;> simp [mainRun, hv, hb, hu, finallyCleanup]
      | error e => cases onDisk <;> simp [mainRun, hv, hb, hu, finallyCleanup]

end Visa
